import Mathlib

/-!
Verification of `convergencelabs/codemirror-collab-ext` against its
natural-language specification.

The TypeScript sources are shallowly embedded:

* `EditorContentManager` (src/unnamed/part_002): the local-edit
  classifier.  Its mutable fields `_suppress` and `_operationQueue`
  become explicit state, the `beforeChange` / `changes` handlers become
  pure state-transformers, and dispatched `onInsert` / `onReplace` /
  `onDelete` callback invocations are collected as a list of
  `ContentEvent`s.  A thrown JavaScript error becomes an `Option
  ChangeError` result component.
* `RemoteSelection`, `RemoteSelectionManager`, `RemoteCursorWidget`,
  `Validation` (src/src/ts): their mutable fields become record states
  and their methods state-transformers; a thrown `Error` becomes a
  returned `Option String` (the error message) with the state unchanged.
* The host CodeMirror editor is external to the repository (spec
  sections 1 and 6); the pieces of its interface this code consumes are
  modelled abstractly (`HostEditor`) and, where document semantics are
  needed, by a flat-text document model.
-/

namespace CMCollab

/-- CodeMirror `Position`: a line / character coordinate pair.  Fields
are JavaScript numbers; they are modelled as integers. -/
structure Position where
  line : Int
  ch : Int
  deriving Repr, DecidableEq

/-- The slice of the host CodeMirror editor interface that the
repository consumes (spec section 6): position↔offset conversion and
pre-mutation range reads.  The editor itself is the external host, not
part of this repository, so it is kept abstract. -/
structure HostEditor where
  indexFromPos : Position → Nat
  posFromIndex : Int → Position
  getRange : Position → Position → String

/-- The `IOperation` record of `EditorContentManager`
(src/unnamed/part_002, bottom of file): one queued pending change.
`inserted` / `deleted` are `string | null` in the source, modelled as
`Option String` with `none` for `null`. -/
structure IOperation where
  «from» : Nat
  «to» : Nat
  inserted : Option String
  deleted : Option String
  deriving Repr, DecidableEq

/-- The CodeMirror change object as consumed by the handlers:
pre-mutation `from` / `to` positions and the replacement-line list
`text`. -/
structure EditorChange where
  «from» : Position
  «to» : Position
  text : List String
  deriving Repr, DecidableEq

/-- JavaScript `changeObj.text[0] !== ""`.  Indexing an empty array
yields `undefined`, and `undefined !== ""` is `true`, so the test holds
for the empty list. -/
def textHeadNonEmpty (text : List String) : Bool :=
  match text with
  | [] => true
  | s :: _ => s ≠ ""

namespace EditorContentManager

/-- The record built and pushed by
`EditorContentManager._onBeforeChange` (src/unnamed/part_002 lines
146-172): `from` / `to` are the flat offsets of the change's start and
end positions, `deleted` is set only when `from !== to` (via a
pre-mutation `getRange` read), and `inserted` is set exactly when
`changeObj.text[0] !== "" || changeObj.text.length > 1`, joining the
lines with newlines. -/
def makeOperation (editor : HostEditor) (changeObj : EditorChange) : IOperation :=
  let «from» := editor.indexFromPos changeObj.«from»
  let «to» := editor.indexFromPos changeObj.«to»
  let deleted : Option String :=
    if «from» ≠ «to» then some (editor.getRange changeObj.«from» changeObj.«to») else none
  let inserted : Option String :=
    if textHeadNonEmpty changeObj.text = true ∨ changeObj.text.length > 1 then
      some (String.intercalate "\n" changeObj.text)
    else none
  { «from» := «from», «to» := «to», inserted := inserted, deleted := deleted }

/-- `EditorContentManager._onBeforeChange` as a transformer of the
pending-operation queue: return early when suppressed, otherwise push
exactly one record. -/
def onBeforeChange (suppress : Bool) (editor : HostEditor)
    (operationQueue : List IOperation) (changeObj : EditorChange) : List IOperation :=
  if suppress then operationQueue
  else operationQueue ++ [makeOperation editor changeObj]

/-- One dispatched callback invocation of the content manager:
`onInsert(index, text)`, `onReplace(index, length, text)` or
`onDelete(index, length)`.  Lengths are computed by JavaScript
subtraction `to - from`, modelled as integer subtraction. -/
inductive ContentEvent where
  | insert (index : Nat) (text : String)
  | replace (index : Nat) (length : Int) (text : String)
  | delete (index : Nat) (length : Int)
  deriving Repr, DecidableEq

/-- The error thrown inside `_onChanges`: either the explicit
`new Error("Unexpected change: " + ...)` for a record with `inserted`
and `deleted` both `null`, or the TypeError raised by destructuring the
`undefined` returned by `shift()` on an empty queue. -/
inductive ChangeError where
  | unexpectedChange (changeObj : EditorChange)
  | shiftUndefined
  deriving Repr, DecidableEq

/-- The if/else-if chain of `_onChanges` (src/unnamed/part_002 lines
192-201) classifying one dequeued record: `inserted` non-null and
`deleted` null is an insert, both non-null a replace, only `deleted`
non-null a delete, both null falls through to the thrown error
(`none` here). -/
def classifyOp (op : IOperation) : Option ContentEvent :=
  match op.inserted, op.deleted with
  | some inserted, none => some (ContentEvent.insert op.«from» inserted)
  | some inserted, some _ => some (ContentEvent.replace op.«from» ((op.«to» : Int) - (op.«from» : Int)) inserted)
  | none, some _ => some (ContentEvent.delete op.«from» ((op.«to» : Int) - (op.«from» : Int)))
  | none, none => none

/-- The `changes.forEach` loop of `_onChanges`: for each change entry
shift one record off the queue and dispatch its classification.
Returns the remaining queue, the dispatched events in order, and the
error (if any) that aborted the loop.  `shift()` on an empty queue
returns `undefined`, whose destructuring throws (`shiftUndefined`); a
record classified `none` throws the explicit unexpected-change error.
Events dispatched before a throw are kept, mirroring the callbacks that
already ran. -/
def onChangesGo : List IOperation → List EditorChange →
    List IOperation × List ContentEvent × Option ChangeError
  | queue, [] => (queue, [], none)
  | [], _ :: _ => ([], [], some ChangeError.shiftUndefined)
  | op :: rest, changeObj :: cs =>
    match classifyOp op with
    | some ev =>
      let r := onChangesGo rest cs
      (r.1, ev :: r.2.1, r.2.2)
    | none => (rest, [], some (ChangeError.unexpectedChange changeObj))

/-- `EditorContentManager._onChanges` (src/unnamed/part_002 lines
185-203): return early when suppressed, otherwise run the forEach
loop over the batch. -/
def onChanges (suppress : Bool) (operationQueue : List IOperation)
    (changes : List EditorChange) :
    List IOperation × List ContentEvent × Option ChangeError :=
  if suppress then (operationQueue, [], none)
  else onChangesGo operationQueue changes

/-- `JSON.stringify` on a CodeMirror position. -/
def jsonStringifyPos (p : Position) : String :=
  "\x7b\"line\":" ++ toString p.line ++ ",\"ch\":" ++ toString p.ch ++ "\x7d"

/-- `JSON.stringify` on a change object (the raw change data embedded
in the unexpected-change error message). -/
def jsonStringifyChange (c : EditorChange) : String :=
  "\x7b\"from\":" ++ jsonStringifyPos c.«from» ++
    ",\"to\":" ++ jsonStringifyPos c.«to» ++
    ",\"text\":[" ++ String.intercalate "," (c.text.map (fun s => "\"" ++ s ++ "\"")) ++
    "]\x7d"

/-- The message of the error thrown by `_onChanges`: the explicit
`"Unexpected change: " + JSON.stringify(changeObj)`, or the runtime
TypeError message for destructuring `undefined`. -/
def errorMessage : ChangeError → String
  | ChangeError.unexpectedChange changeObj =>
      "Unexpected change: " ++ jsonStringifyChange changeObj
  | ChangeError.shiftUndefined =>
      "TypeError: cannot destructure property of undefined"

end EditorContentManager

/-- The mutable state of an `EditorContentManager`: the `_suppress`
flag and the `_operationQueue`. -/
structure EditorContentManagerState where
  suppress : Bool
  operationQueue : List IOperation
  deriving Repr, DecidableEq

namespace EditorContentManager

/-- `EditorContentManager.insert` (src/unnamed/part_002 lines 81-86):
set `_suppress`, call `editor.replaceRange(text, posFromIndex(index))`,
clear `_suppress`.  The host editor delivers notifications
synchronously during `replaceRange` (spec section 5): `befores` are the
`beforeChange` notifications it fires and `batch` the entries of its
batched `changes` notification; both handlers run while the flag set by
this method is in force.  Returns the manager state after the call, the
callback invocations dispatched during it, and any handler error. -/
def insert (editor : HostEditor) (st : EditorContentManagerState)
    (index : Int) (text : String) (befores batch : List EditorChange) :
    EditorContentManagerState × List ContentEvent × Option ChangeError :=
  let suppress := true
  let _pos := editor.posFromIndex index
  let q1 := befores.foldl (fun q c => onBeforeChange suppress editor q c) st.operationQueue
  let r := onChanges suppress q1 batch
  let _text := text
  ({ suppress := false, operationQueue := r.1 }, r.2.1, r.2.2)

/-- `EditorContentManager.replace` (src/unnamed/part_002 lines 96-102):
set `_suppress`, call `editor.replaceRange(text, posFromIndex(index),
posFromIndex(index + length))`, clear `_suppress`.  Notification
delivery is modelled as in `insert`. -/
def replace (editor : HostEditor) (st : EditorContentManagerState)
    (index length : Int) (text : String) (befores batch : List EditorChange) :
    EditorContentManagerState × List ContentEvent × Option ChangeError :=
  let suppress := true
  let _from := editor.posFromIndex index
  let _to := editor.posFromIndex (index + length)
  let q1 := befores.foldl (fun q c => onBeforeChange suppress editor q c) st.operationQueue
  let r := onChanges suppress q1 batch
  let _text := text
  ({ suppress := false, operationQueue := r.1 }, r.2.1, r.2.2)

/-- `EditorContentManager.delete` (src/unnamed/part_002 lines 114-120):
set `_suppress`, call `editor.replaceRange("", posFromIndex(index),
posFromIndex(index + length))`, clear `_suppress`.  Notification
delivery is modelled as in `insert`. -/
def delete (editor : HostEditor) (st : EditorContentManagerState)
    (index length : Int) (befores batch : List EditorChange) :
    EditorContentManagerState × List ContentEvent × Option ChangeError :=
  let suppress := true
  let _from := editor.posFromIndex index
  let _to := editor.posFromIndex (index + length)
  let q1 := befores.foldl (fun q c => onBeforeChange suppress editor q c) st.operationQueue
  let r := onChanges suppress q1 batch
  ({ suppress := false, operationQueue := r.1 }, r.2.1, r.2.2)

end EditorContentManager

/-!
Document-effect model.  The host editor's document is modelled as the
flat list of its characters; `posFromIndex` clips an offset to the
document length and `replaceRange(text, from, to)` splices `text` over
the range `[from, to)` (CodeMirror documented behaviour, spec section
6).  Positions are identified with their flat offsets here, which is
faithful because `insert` / `replace` / `delete` only ever feed
`posFromIndex` results straight into `replaceRange`.
-/

/-- Host `posFromIndex` on the flat document model: clip the offset to
the document length. -/
def posFromIndexFlat (doc : List Char) (index : Nat) : Nat :=
  min index doc.length

/-- Host `replaceRange(text, from, to)` on the flat document model. -/
def replaceRangeFlat (doc text : List Char) («from» «to» : Nat) : List Char :=
  doc.take «from» ++ text ++ doc.drop «to»

namespace EditorContentManager

/-- Document effect of `EditorContentManager.insert(index, text)`:
`replaceRange(text, posFromIndex(index))` with the omitted `to`
defaulting to `from`. -/
def insertDoc (doc : List Char) (index : Nat) (text : List Char) : List Char :=
  let «from» := posFromIndexFlat doc index
  replaceRangeFlat doc text «from» «from»

/-- Document effect of `EditorContentManager.delete(index, length)`:
`replaceRange("", posFromIndex(index), posFromIndex(index + length))`. -/
def deleteDoc (doc : List Char) (index length : Nat) : List Char :=
  let «from» := posFromIndexFlat doc index
  let «to» := posFromIndexFlat doc (index + length)
  replaceRangeFlat doc [] «from» «to»

end EditorContentManager

/-!
`RemoteSelection` (src/src/ts/RemoteSelection.ts).  The mutable fields
`_startPosition`, `_endPosition`, `_marker`, `_disposed` and the style
element added to the document head become a record state; the
`_onDisposed` callback is tracked by the number of times it has run.
-/

/-- The mutable state of a `RemoteSelection`. -/
structure RemoteSelectionState where
  startPosition : Position
  endPosition : Position
  /-- A CodeMirror `TextMarker` is currently rendered (truthy `_marker`
  that has not been cleared). -/
  marker : Bool
  /-- The dynamic style element is still attached to the document head. -/
  styleAttached : Bool
  disposed : Bool
  /-- How many times the internal `_onDisposed` callback has been
  invoked. -/
  onDisposedCount : Nat
  deriving Repr, DecidableEq

namespace RemoteSelection

/-- `RemoteSelection._swapIfNeeded` (RemoteSelection.ts lines 53-59):
keep the pair when `start.line < end.line || (start.line === end.line
&& start.ch <= end.ch)`, otherwise swap. -/
def swapIfNeeded (start «end» : Position) : Position × Position :=
  if start.line < «end».line ∨ (start.line = «end».line ∧ start.ch ≤ «end».ch) then
    (start, «end»)
  else
    («end», start)

/-- `RemoteSelection._render`: clear any existing marker and mark the
current start/end range. -/
def render (st : RemoteSelectionState) : RemoteSelectionState :=
  { st with marker := true }

/-- `RemoteSelection.setPositions` (RemoteSelection.ts lines 184-190):
order the two positions with `_swapIfNeeded`, store them, re-render. -/
def setPositions (st : RemoteSelectionState) (start «end» : Position) :
    RemoteSelectionState :=
  let ordered := swapIfNeeded start «end»
  render { st with startPosition := ordered.1, endPosition := ordered.2 }

/-- `RemoteSelection.setIndices`: convert both offsets with the host's
`posFromIndex` and delegate to `setPositions`. -/
def setIndices (editor : HostEditor) (st : RemoteSelectionState)
    (start «end» : Int) : RemoteSelectionState :=
  setPositions st (editor.posFromIndex start) (editor.posFromIndex «end»)

/-- `RemoteSelection.getStartPosition`: returns a copy of the stored
start position (same value). -/
def getStartPosition (st : RemoteSelectionState) : Position :=
  st.startPosition

/-- `RemoteSelection.getEndPosition`: returns a copy of the stored end
position (same value). -/
def getEndPosition (st : RemoteSelectionState) : Position :=
  st.endPosition

/-- `RemoteSelection.show`: re-render the marker. -/
def «show» (st : RemoteSelectionState) : RemoteSelectionState :=
  render st

/-- `RemoteSelection.hide`: clear the marker if one is rendered. -/
def hide (st : RemoteSelectionState) : RemoteSelectionState :=
  if st.marker then { st with marker := false } else st

/-- `RemoteSelection.isDisposed`. -/
def isDisposed (st : RemoteSelectionState) : Bool :=
  st.disposed

/-- `RemoteSelection.dispose` (RemoteSelection.ts lines 221-228): when
not yet disposed, detach the style element, hide the marker, set the
disposed flag and invoke `_onDisposed`; otherwise do nothing. -/
def dispose (st : RemoteSelectionState) : RemoteSelectionState :=
  if st.disposed then st
  else
    let st := { st with styleAttached := false }
    let st := hide st
    let st := { st with disposed := true }
    { st with onDisposedCount := st.onDisposedCount + 1 }

end RemoteSelection

/-!
`RemoteCursorWidget` (the cursor decorator delegated to by
`RemoteCursor`).  Mutable fields `_position`, `_index`, `_disposed`,
the scroll listener and the owned `EditorContentManager` become a
record state; `_onDisposed` is tracked by an invocation count.
-/

/-- The mutable state of a `RemoteCursorWidget`. -/
structure RemoteCursorWidgetState where
  index : Nat
  position : Position
  /-- The `scroll` listener is still registered on the editor. -/
  scrollListener : Bool
  /-- The owned `EditorContentManager` has been disposed. -/
  contentManagerDisposed : Bool
  disposed : Bool
  /-- How many times the internal `_onDisposed` callback has been
  invoked. -/
  onDisposedCount : Nat
  deriving Repr, DecidableEq

namespace RemoteCursorWidget

/-- `RemoteCursorWidget.dispose`: when already disposed, return
immediately; otherwise remove the scroll listener, dispose the content
manager, set the disposed flag and invoke `_onDisposed`. -/
def dispose (st : RemoteCursorWidgetState) : RemoteCursorWidgetState :=
  if st.disposed then st
  else
    { st with
      scrollListener := false
      contentManagerDisposed := true
      disposed := true
      onDisposedCount := st.onDisposedCount + 1 }

end RemoteCursorWidget

/-!
`Validation` (src/src/ts/Validation.ts) guards against runtime misuse,
so its arguments range over arbitrary JavaScript values, modelled by
`JSValue`.  A thrown `Error` becomes a returned `some message`.
-/

/-- A JavaScript runtime value, as far as the validation code
distinguishes them. -/
inductive JSValue where
  | null
  | undefined
  | num (n : Int)
  | str (s : String)
  | bool (b : Bool)
  | func
  | obj (fields : List (String × JSValue))

/-- JavaScript `typeof`. -/
def jsTypeof : JSValue → String
  | JSValue.null => "object"
  | JSValue.undefined => "undefined"
  | JSValue.num _ => "number"
  | JSValue.str _ => "string"
  | JSValue.bool _ => "boolean"
  | JSValue.func => "function"
  | JSValue.obj _ => "object"

/-- JavaScript string coercion as used in template literals
(`` `${val}` ``).  Functions stringify to their source text, modelled
by a fixed placeholder. -/
def jsToString : JSValue → String
  | JSValue.null => "null"
  | JSValue.undefined => "undefined"
  | JSValue.num n => toString n
  | JSValue.str s => s
  | JSValue.bool true => "true"
  | JSValue.bool false => "false"
  | JSValue.func => "function () \x7b\x7d"
  | JSValue.obj _ => "[object Object]"

mutual

/-- `JSON.stringify` on a JavaScript value (string escaping elided). -/
def jsonStringifyJS : JSValue → String
  | JSValue.null => "null"
  | JSValue.undefined => "undefined"
  | JSValue.num n => toString n
  | JSValue.str s => "\"" ++ s ++ "\""
  | JSValue.bool true => "true"
  | JSValue.bool false => "false"
  | JSValue.func => "undefined"
  | JSValue.obj fields => "\x7b" ++ jsonStringifyJSFields fields ++ "\x7d"

/-- `JSON.stringify` on an object's field list. -/
def jsonStringifyJSFields : List (String × JSValue) → String
  | [] => ""
  | [(k, v)] => "\"" ++ k ++ "\":" ++ jsonStringifyJS v
  | (k, v) :: f :: rest =>
      "\"" ++ k ++ "\":" ++ jsonStringifyJS v ++ "," ++ jsonStringifyJSFields (f :: rest)

end

/-- JavaScript `val === undefined || val === null`. -/
def isNullOrUndefined : JSValue → Bool
  | JSValue.null => true
  | JSValue.undefined => true
  | _ => false

/-- JavaScript property access `val.key` on a value already known to be
defined: the field's value on objects, `undefined` otherwise. -/
def getField : JSValue → String → JSValue
  | JSValue.obj fields, k =>
    match fields.lookup k with
    | some v => v
    | none => JSValue.undefined
  | _, _ => JSValue.undefined

namespace Validation

/-- `Validation.assertString` (Validation.ts): throw when
`typeof val !== "string"`. -/
def assertString (val : JSValue) (name : String) : Option String :=
  if jsTypeof val ≠ "string" then
    some (name ++ " must be a string but was: " ++ jsToString val)
  else none

/-- `Validation.assertNumber` (Validation.ts): throw when
`typeof val !== "number"`. -/
def assertNumber (val : JSValue) (name : String) : Option String :=
  if jsTypeof val ≠ "number" then
    some (name ++ " must be a number but was: " ++ jsToString val)
  else none

/-- `Validation.assertDefined` (Validation.ts): throw when `val` is
`undefined` or `null`. -/
def assertDefined (val : JSValue) (name : String) : Option String :=
  if isNullOrUndefined val then
    some (name ++ " must be a defined but was: " ++ jsToString val)
  else none

/-- `Validation.assertFunction` (Validation.ts): throw when
`typeof val !== "function"`. -/
def assertFunction (val : JSValue) (name : String) : Option String :=
  if jsTypeof val ≠ "function" then
    some (name ++ " must be a function but was: " ++ jsTypeof val)
  else none

/-- `Validation.assertPosition` (Validation.ts): `assertDefined`, then
throw when `val.line` or `val.ch` is not a number. -/
def assertPosition (val : JSValue) (name : String) : Option String :=
  match assertDefined val name with
  | some err => some err
  | none =>
    if jsTypeof (getField val "line") ≠ "number" ∨ jsTypeof (getField val "ch") ≠ "number" then
      some (name ++ " must be an Object like \x7bline: number, ch: number\x7d: "
        ++ jsonStringifyJS val)
    else none

end Validation

/-- The JavaScript object form of a CodeMirror position, as produced by
the host's `posFromIndex`. -/
def Position.toJS (p : Position) : JSValue :=
  JSValue.obj [("line", JSValue.num p.line), ("ch", JSValue.num p.ch)]

/-- Read a validated position object back into a `Position`. -/
def positionOfJS (v : JSValue) : Position :=
  match getField v "line", getField v "ch" with
  | JSValue.num l, JSValue.num c => ⟨l, c⟩
  | _, _ => ⟨0, 0⟩

/-- The numeric value of a validated JavaScript number. -/
def jsNumValue : JSValue → Int
  | JSValue.num n => n
  | _ => 0

namespace RemoteCursorWidget

/-- `RemoteCursorWidget._updatePosition`: recompute the DOM placement
(not part of the tracked state) and store the new flat index and
position. -/
def updatePosition (editor : HostEditor) (st : RemoteCursorWidgetState)
    (position : Position) : RemoteCursorWidgetState :=
  { st with index := editor.indexFromPos position, position := position }

/-- `RemoteCursorWidget.setPosition`: `Validation.assertPosition` on
the argument, then `_updatePosition`.  On a validation failure the
thrown message is returned and the state is untouched. -/
def setPosition (editor : HostEditor) (st : RemoteCursorWidgetState)
    (position : JSValue) : RemoteCursorWidgetState × Option String :=
  match Validation.assertPosition position "position" with
  | some err => (st, some err)
  | none => (updatePosition editor st (positionOfJS position), none)

/-- `RemoteCursorWidget.setIndex`: `Validation.assertNumber` on the
argument, then convert via the host's `posFromIndex` and delegate to
`setPosition`.  On a validation failure the thrown message is returned
and the state is untouched. -/
def setIndex (editor : HostEditor) (st : RemoteCursorWidgetState)
    (index : JSValue) : RemoteCursorWidgetState × Option String :=
  match Validation.assertNumber index "index" with
  | some err => (st, some err)
  | none =>
    let position := editor.posFromIndex (jsNumValue index)
    setPosition editor st position.toJS

end RemoteCursorWidget

/-!
`RemoteSelectionManager` (src/src/ts/RemoteSelectionManager.ts).  The
`Map<string, RemoteSelection>` registry becomes an association list in
insertion order (`Map.set` replaces in place or appends).
-/

/-- The mutable state of a `RemoteSelectionManager`. -/
structure RemoteSelectionManagerState where
  remoteSelections : List (String × RemoteSelectionState)
  nextClassId : Nat
  deriving Repr, DecidableEq

namespace RemoteSelectionManager

/-- The `RemoteSelectionManager` constructor: `assertDefined(options,
"options")`, then start with an empty registry and class id 0. -/
def construct (options : JSValue) : Except String RemoteSelectionManagerState :=
  match Validation.assertDefined options "options" with
  | some err => Except.error err
  | none => Except.ok { remoteSelections := [], nextClassId := 0 }

/-- `RemoteSelectionManager._getSelection` (lines 143-149): throw
`"No such selection: " + id` when the registry has no such id. -/
def getSelection (st : RemoteSelectionManagerState) (id : String) :
    Except String RemoteSelectionState :=
  match st.remoteSelections.lookup id with
  | none => Except.error ("No such selection: " ++ id)
  | some sel => Except.ok sel

/-- JavaScript `Map.set`: replace the entry in place when the key
exists, otherwise append. -/
def setEntry (m : List (String × RemoteSelectionState)) (id : String)
    (sel : RemoteSelectionState) : List (String × RemoteSelectionState) :=
  if (m.lookup id).isSome then
    m.map (fun p => if p.1 = id then (id, sel) else p)
  else m ++ [(id, sel)]

/-- In-place mutation of the selection object registered under `id`
(the map keeps pointing at the same object; its state changes). -/
def updateSelection (st : RemoteSelectionManagerState) (id : String)
    (f : RemoteSelectionState → RemoteSelectionState) : RemoteSelectionManagerState :=
  { st with remoteSelections := st.remoteSelections.map (fun p => if p.1 = id then (p.1, f p.2) else p) }

/-- `RemoteSelectionManager.addSelection`: create a fresh selection
(style element attached, nothing rendered yet), register it under `id`
and bump `_nextClassId`. -/
def addSelection (st : RemoteSelectionManagerState) (id : String) :
    RemoteSelectionManagerState × RemoteSelectionState :=
  let selection : RemoteSelectionState :=
    { startPosition := ⟨0, 0⟩, endPosition := ⟨0, 0⟩, marker := false,
      styleAttached := true, disposed := false, onDisposedCount := 0 }
  ({ st with remoteSelections := setEntry st.remoteSelections id selection,
             nextClassId := st.nextClassId + 1 }, selection)

/-- `RemoteSelectionManager.removeSelection` (lines 79-84): look the
selection up (throwing when absent) and dispose it when not already
disposed.  The dispose callback re-enters `removeSelection`, which then
finds the selection already disposed and does nothing, so the net
effect is the in-place disposal of the registered selection. -/
def removeSelection (st : RemoteSelectionManagerState) (id : String) :
    RemoteSelectionManagerState × Option String :=
  match getSelection st id with
  | Except.error err => (st, some err)
  | Except.ok sel =>
    if sel.disposed = false then
      (updateSelection st id RemoteSelection.dispose, none)
    else (st, none)

/-- `RemoteSelectionManager.setSelectionIndices`: look the selection up
(throwing when absent) and delegate to `RemoteSelection.setIndices`. -/
def setSelectionIndices (editor : HostEditor) (st : RemoteSelectionManagerState)
    (id : String) (start «end» : Int) : RemoteSelectionManagerState × Option String :=
  match getSelection st id with
  | Except.error err => (st, some err)
  | Except.ok _ =>
    (updateSelection st id (fun sel => RemoteSelection.setIndices editor sel start «end»), none)

/-- `RemoteSelectionManager.setSelectionPositions`: look the selection
up (throwing when absent) and delegate to
`RemoteSelection.setPositions`. -/
def setSelectionPositions (st : RemoteSelectionManagerState)
    (id : String) (start «end» : Position) : RemoteSelectionManagerState × Option String :=
  match getSelection st id with
  | Except.error err => (st, some err)
  | Except.ok _ =>
    (updateSelection st id (fun sel => RemoteSelection.setPositions sel start «end»), none)

/-- `RemoteSelectionManager.showSelection`: look the selection up
(throwing when absent) and delegate to `RemoteSelection.show`. -/
def showSelection (st : RemoteSelectionManagerState) (id : String) :
    RemoteSelectionManagerState × Option String :=
  match getSelection st id with
  | Except.error err => (st, some err)
  | Except.ok _ => (updateSelection st id RemoteSelection.«show», none)

/-- `RemoteSelectionManager.hideSelection`: look the selection up
(throwing when absent) and delegate to `RemoteSelection.hide`. -/
def hideSelection (st : RemoteSelectionManagerState) (id : String) :
    RemoteSelectionManagerState × Option String :=
  match getSelection st id with
  | Except.error err => (st, some err)
  | Except.ok _ => (updateSelection st id RemoteSelection.hide, none)

end RemoteSelectionManager

/-- Lexicographic (line, ch) order on CodeMirror positions: `a` comes
no later than `b` in the document. -/
def Position.leq (a b : Position) : Prop :=
  a.line < b.line ∨ (a.line = b.line ∧ a.ch ≤ b.ch)

/-- A concrete single-line host editor (every position lives on line 0
and its `ch` is the flat offset), used to evaluate theorems on closed
inputs. -/
def lineZeroEditor : HostEditor :=
  { indexFromPos := fun p => p.ch.toNat
    posFromIndex := fun i => ⟨0, i⟩
    getRange := fun _ _ => "" }

/-- A concrete live selection state. -/
def sampleSelection : RemoteSelectionState :=
  { startPosition := ⟨0, 0⟩, endPosition := ⟨0, 0⟩, marker := true,
    styleAttached := true, disposed := false, onDisposedCount := 0 }

/-- A concrete live cursor widget state. -/
def sampleWidget : RemoteCursorWidgetState :=
  { index := 0, position := ⟨0, 0⟩, scrollListener := true,
    contentManagerDisposed := false, disposed := false, onDisposedCount := 0 }

/-! Helper lemmas shared by the claim theorems. -/

namespace EditorContentManager

theorem onBeforeChange_suppressed (editor : HostEditor) (q : List IOperation)
    (c : EditorChange) : onBeforeChange true editor q c = q := rfl

theorem foldl_onBeforeChange_suppressed (editor : HostEditor)
    (befores : List EditorChange) (q : List IOperation) :
    befores.foldl (fun acc c => onBeforeChange true editor acc c) q = q := by
  induction befores generalizing q with
  | nil => rfl
  | cons c cs ih => simp [onBeforeChange, ih q]

theorem foldl_onBeforeChange_active (editor : HostEditor)
    (befores : List EditorChange) (q : List IOperation) :
    befores.foldl (fun acc c => onBeforeChange false editor acc c) q
      = q ++ befores.map (makeOperation editor) := by
  induction befores generalizing q with
  | nil => simp
  | cons c cs ih =>
    simp only [List.foldl_cons]
    rw [ih]
    simp [onBeforeChange]

theorem onChangesGo_nil (q : List IOperation) : onChangesGo q [] = (q, [], none) := by
  cases q <;> rfl

theorem onChangesGo_nil_cons (c : EditorChange) (cs : List EditorChange) :
    onChangesGo [] (c :: cs) = ([], [], some ChangeError.shiftUndefined) := rfl

theorem onChangesGo_cons_some (op : IOperation) (rest : List IOperation)
    (c : EditorChange) (cs : List EditorChange) (ev : ContentEvent)
    (h : classifyOp op = some ev) :
    onChangesGo (op :: rest) (c :: cs)
      = ((onChangesGo rest cs).1, ev :: (onChangesGo rest cs).2.1,
         (onChangesGo rest cs).2.2) := by
  simp [onChangesGo, h]

theorem onChangesGo_cons_none (op : IOperation) (rest : List IOperation)
    (c : EditorChange) (cs : List EditorChange) (h : classifyOp op = none) :
    onChangesGo (op :: rest) (c :: cs)
      = (rest, [], some (ChangeError.unexpectedChange c)) := by
  simp [onChangesGo, h]

theorem onChangesGo_append (q₁ : List IOperation) :
    ∀ (cs₁ : List EditorChange) (q : List IOperation) (cs : List EditorChange),
      cs₁.length = q₁.length → (∀ op ∈ q₁, classifyOp op ≠ none) →
      onChangesGo (q₁ ++ q) (cs₁ ++ cs)
        = ((onChangesGo q cs).1,
           q₁.filterMap classifyOp ++ (onChangesGo q cs).2.1,
           (onChangesGo q cs).2.2) := by
  induction q₁ with
  | nil =>
    intro cs₁ q cs hlen _
    cases cs₁ with
    | nil => simp
    | cons c cs' => simp at hlen
  | cons op rest ih =>
    intro cs₁ q cs hlen hclass
    cases cs₁ with
    | nil => simp at hlen
    | cons c cs' =>
      obtain ⟨ev, hev⟩ := Option.ne_none_iff_exists'.mp (hclass op (by simp))
      have hrest : ∀ o ∈ rest, classifyOp o ≠ none := fun o ho => hclass o (by simp [ho])
      have hlen' : cs'.length = rest.length := by simpa using hlen
      simp only [List.cons_append]
      rw [onChangesGo_cons_some op (rest ++ q) c (cs' ++ cs) ev hev,
        ih cs' q cs hlen' hrest]
      simp [List.filterMap_cons, hev]

theorem filterMap_classifyOp_length (q : List IOperation)
    (h : ∀ op ∈ q, classifyOp op ≠ none) :
    (q.filterMap classifyOp).length = q.length := by
  induction q with
  | nil => rfl
  | cons op rest ih =>
    obtain ⟨ev, hev⟩ := Option.ne_none_iff_exists'.mp (h op (by simp))
    simp [List.filterMap_cons, hev, ih (fun o ho => h o (by simp [ho]))]

theorem filterMap_classifyOp_getElem (q : List IOperation)
    (h : ∀ op ∈ q, classifyOp op ≠ none) :
    ∀ i : Nat, (q.filterMap classifyOp)[i]? = (q[i]?).bind classifyOp := by
  induction q with
  | nil => intro i; simp
  | cons op rest ih =>
    intro i
    obtain ⟨ev, hev⟩ := Option.ne_none_iff_exists'.mp (h op (by simp))
    cases i with
    | zero => simp [List.filterMap_cons, hev]
    | succ n => simp [List.filterMap_cons, hev, ih (fun o ho => h o (by simp [ho])) n]

/-- The push condition of `_onBeforeChange` holds exactly when the
replacement-line list is not the single empty string. -/
theorem insertedTest_iff (text : List String) :
    (textHeadNonEmpty text = true ∨ text.length > 1) ↔ text ≠ [""] := by
  match text with
  | [] => simp [textHeadNonEmpty]
  | [s] => simp [textHeadNonEmpty]
  | a :: b :: t => simp [textHeadNonEmpty]

end EditorContentManager

namespace RemoteSelection

theorem swapIfNeeded_leq (start «end» : Position) :
    Position.leq (swapIfNeeded start «end»).1 (swapIfNeeded start «end»).2 := by
  unfold swapIfNeeded
  split <;> simp only [Position.leq] at * <;> omega

end RemoteSelection

/-! Claim theorems. -/

/-- C2: the record pushed by an unsuppressed `beforeChange`
notification has `from` / `to` equal to the flat offsets of the
change's start and end positions in the pre-mutation document,
`deleted = null` iff `from = to` (otherwise the pre-mutation text of
`[from, to)`), and `inserted = null` iff the replacement-line list is
exactly one empty string (otherwise the lines joined with newlines). -/
theorem c2_before_change_record (editor : HostEditor)
    (operationQueue : List IOperation) (changeObj : EditorChange) :
    EditorContentManager.onBeforeChange false editor operationQueue changeObj
      = operationQueue ++ [EditorContentManager.makeOperation editor changeObj] ∧
    (EditorContentManager.makeOperation editor changeObj).«from»
      = editor.indexFromPos changeObj.«from» ∧
    (EditorContentManager.makeOperation editor changeObj).«to»
      = editor.indexFromPos changeObj.«to» ∧
    ((EditorContentManager.makeOperation editor changeObj).deleted = none ↔
      editor.indexFromPos changeObj.«from» = editor.indexFromPos changeObj.«to») ∧
    (editor.indexFromPos changeObj.«from» ≠ editor.indexFromPos changeObj.«to» →
      (EditorContentManager.makeOperation editor changeObj).deleted
        = some (editor.getRange changeObj.«from» changeObj.«to»)) ∧
    ((EditorContentManager.makeOperation editor changeObj).inserted = none ↔
      changeObj.text = [""]) ∧
    (changeObj.text ≠ [""] →
      (EditorContentManager.makeOperation editor changeObj).inserted
        = some (String.intercalate "\n" changeObj.text)) := by
  refine ⟨rfl, rfl, rfl, ?_, ?_, ?_, ?_⟩
  · simp only [EditorContentManager.makeOperation]
    split_ifs with h <;> simp_all
  · intro h
    simp only [EditorContentManager.makeOperation]
    rw [if_pos h]
  · simp only [EditorContentManager.makeOperation]
    split_ifs with h
    · simp [(EditorContentManager.insertedTest_iff changeObj.text).mp h]
    · have htext : changeObj.text = [""] := by
        by_contra hne
        exact h ((EditorContentManager.insertedTest_iff changeObj.text).mpr hne)
      simp [htext]
  · intro h
    simp only [EditorContentManager.makeOperation]
    rw [if_pos ((EditorContentManager.insertedTest_iff changeObj.text).mpr h)]

/-- Witness for C2 at a concrete change: a two-line replacement of the
range `[0, 2)` on line zero. -/
theorem c2_before_change_record_witness :
    EditorContentManager.onBeforeChange false lineZeroEditor []
        ⟨⟨0, 0⟩, ⟨0, 2⟩, ["ab", "cd"]⟩
      = [] ++ [EditorContentManager.makeOperation lineZeroEditor
          ⟨⟨0, 0⟩, ⟨0, 2⟩, ["ab", "cd"]⟩] ∧
    EditorContentManager.makeOperation lineZeroEditor ⟨⟨0, 0⟩, ⟨0, 2⟩, ["ab", "cd"]⟩
      = ⟨0, 2, some "ab\ncd", some ""⟩ :=
  ⟨(c2_before_change_record lineZeroEditor [] ⟨⟨0, 0⟩, ⟨0, 2⟩, ["ab", "cd"]⟩).1,
   by decide⟩

/-- C5: an edit issued through the manager's own `insert`, `replace` or
`delete` suppresses its own notifications for the duration of the call:
whatever notifications the host fires during the suppressed
`replaceRange`, no record is appended to the pending queue, no callback
is invoked, and no error is raised. -/
theorem c5_suppressed_edits (editor : HostEditor) (st : EditorContentManagerState)
    (index length : Int) (text : String) (befores batch : List EditorChange) :
    EditorContentManager.insert editor st index text befores batch
      = ({ suppress := false, operationQueue := st.operationQueue }, [], none) ∧
    EditorContentManager.replace editor st index length text befores batch
      = ({ suppress := false, operationQueue := st.operationQueue }, [], none) ∧
    EditorContentManager.delete editor st index length befores batch
      = ({ suppress := false, operationQueue := st.operationQueue }, [], none) := by
  refine ⟨?_, ?_, ?_⟩ <;>
    simp [EditorContentManager.insert, EditorContentManager.replace,
      EditorContentManager.delete, EditorContentManager.onChanges,
      EditorContentManager.foldl_onBeforeChange_suppressed]

/-- C6: `dispose` on a selection or cursor decorator is idempotent: the
first call sets the disposed flag and runs the `onDisposed` callback
exactly once; once disposed, a further `dispose` is a no-op leaving the
state unchanged. -/
theorem c6_dispose_idempotent (sel : RemoteSelectionState) (w : RemoteCursorWidgetState) :
    (sel.disposed = false →
      (RemoteSelection.dispose sel).disposed = true ∧
      (RemoteSelection.dispose sel).onDisposedCount = sel.onDisposedCount + 1) ∧
    (sel.disposed = true → RemoteSelection.dispose sel = sel) ∧
    RemoteSelection.dispose (RemoteSelection.dispose sel) = RemoteSelection.dispose sel ∧
    (w.disposed = false →
      (RemoteCursorWidget.dispose w).disposed = true ∧
      (RemoteCursorWidget.dispose w).onDisposedCount = w.onDisposedCount + 1) ∧
    (w.disposed = true → RemoteCursorWidget.dispose w = w) ∧
    RemoteCursorWidget.dispose (RemoteCursorWidget.dispose w) = RemoteCursorWidget.dispose w := by
  refine ⟨fun h => ?_, fun h => ?_, ?_, fun h => ?_, fun h => ?_, ?_⟩
  · simp [RemoteSelection.dispose, RemoteSelection.hide, h]
    split <;> simp
  · simp [RemoteSelection.dispose, h]
  · by_cases h : sel.disposed <;>
      simp [RemoteSelection.dispose, RemoteSelection.hide, h]
  · simp [RemoteCursorWidget.dispose, h]
  · simp [RemoteCursorWidget.dispose, h]
  · by_cases h : w.disposed <;> simp [RemoteCursorWidget.dispose, h]

/-- Witness for C6 at a concrete live selection and cursor. -/
theorem c6_dispose_idempotent_witness :
    sampleSelection.disposed = false ∧
    (RemoteSelection.dispose sampleSelection).disposed = true ∧
    (RemoteSelection.dispose sampleSelection).onDisposedCount
      = sampleSelection.onDisposedCount + 1 ∧
    RemoteSelection.dispose (RemoteSelection.dispose sampleSelection)
      = RemoteSelection.dispose sampleSelection ∧
    sampleWidget.disposed = false ∧
    (RemoteCursorWidget.dispose sampleWidget).disposed = true ∧
    RemoteCursorWidget.dispose (RemoteCursorWidget.dispose sampleWidget)
      = RemoteCursorWidget.dispose sampleWidget :=
  ⟨rfl,
   ((c6_dispose_idempotent sampleSelection sampleWidget).1 rfl).1,
   ((c6_dispose_idempotent sampleSelection sampleWidget).1 rfl).2,
   (c6_dispose_idempotent sampleSelection sampleWidget).2.2.1,
   rfl,
   ((c6_dispose_idempotent sampleSelection sampleWidget).2.2.2.1 rfl).1,
   (c6_dispose_idempotent sampleSelection sampleWidget).2.2.2.2.2⟩

/-- C7: on any document of length at least 5, `insert(5, "hi")`
followed by `delete(5, 2)` restores the original document. -/
theorem c7_insert_delete_roundtrip (doc : List Char) (h : 5 ≤ doc.length) :
    EditorContentManager.deleteDoc
        (EditorContentManager.insertDoc doc 5 ['h', 'i']) 5 2 = doc := by
  simp only [EditorContentManager.insertDoc, EditorContentManager.deleteDoc,
    posFromIndexFlat, replaceRangeFlat]
  rw [Nat.min_eq_left h]
  have hX : (doc.take 5 ++ ['h', 'i'] ++ doc.drop 5).length = doc.length + 2 := by
    simp
    omega
  have m1 : min 5 (doc.take 5 ++ ['h', 'i'] ++ doc.drop 5).length = 5 := by
    rw [hX]; omega
  have m2 : min (5 + 2) (doc.take 5 ++ ['h', 'i'] ++ doc.drop 5).length = 7 := by
    rw [hX]; omega
  rw [m1, m2]
  have hl5 : (doc.take 5).length = 5 := by simp; omega
  have hl7 : (doc.take 5 ++ ['h', 'i']).length = 7 := by simp; omega
  rw [List.append_assoc (doc.take 5) ['h', 'i'] (doc.drop 5)]
  rw [List.take_left' hl5]
  rw [← List.append_assoc (doc.take 5) ['h', 'i'] (doc.drop 5)]
  rw [List.drop_left' hl7]
  simp [List.take_append_drop]

/-- Witness for C7 at the concrete five-character document "abcde". -/
theorem c7_insert_delete_roundtrip_witness :
    EditorContentManager.deleteDoc
        (EditorContentManager.insertDoc ['a', 'b', 'c', 'd', 'e'] 5 ['h', 'i']) 5 2
      = ['a', 'b', 'c', 'd', 'e'] :=
  c7_insert_delete_roundtrip ['a', 'b', 'c', 'd', 'e'] (by decide)

/-- C9: the stored selection is normalized: after any `setPositions`
(in either argument order) or `setIndices` call, the start position is
lexicographically no later than the end position. -/
theorem c9_selection_normalized (editor : HostEditor) (st : RemoteSelectionState)
    (start «end» : Position) (i j : Int) :
    Position.leq
      (RemoteSelection.getStartPosition (RemoteSelection.setPositions st start «end»))
      (RemoteSelection.getEndPosition (RemoteSelection.setPositions st start «end»)) ∧
    Position.leq
      (RemoteSelection.getStartPosition (RemoteSelection.setIndices editor st i j))
      (RemoteSelection.getEndPosition (RemoteSelection.setIndices editor st i j)) := by
  constructor
  · simpa [RemoteSelection.setPositions, RemoteSelection.render,
      RemoteSelection.getStartPosition, RemoteSelection.getEndPosition]
      using RemoteSelection.swapIfNeeded_leq start «end»
  · simpa [RemoteSelection.setIndices, RemoteSelection.setPositions,
      RemoteSelection.render, RemoteSelection.getStartPosition,
      RemoteSelection.getEndPosition]
      using RemoteSelection.swapIfNeeded_leq (editor.posFromIndex i) (editor.posFromIndex j)

/-- C1: with suppression off, a batch in which every dequeued record is
classifiable (not both fields null) dequeues exactly one record per
change entry (FIFO) and dispatches exactly one callback per change
entry, the one chosen by `classifyOp` — insert for `inserted` non-null
/ `deleted` null, replace (with length `to - from`) for both non-null,
delete for `inserted` null / `deleted` non-null; in particular a
replacement yields one Replace event, never a Delete plus an Insert. -/
theorem c1_changes_classification
    (operationQueue : List IOperation) (changes : List EditorChange)
    (hlen : changes.length ≤ operationQueue.length)
    (hclass : ∀ op ∈ operationQueue.take changes.length,
      EditorContentManager.classifyOp op ≠ none) :
    ∃ events,
      EditorContentManager.onChanges false operationQueue changes
        = (operationQueue.drop changes.length, events, none) ∧
      events.length = changes.length ∧
      ∀ i : Nat, i < changes.length →
        events[i]? = (operationQueue[i]?).bind EditorContentManager.classifyOp := by
  have hlen₁ : changes.length = (operationQueue.take changes.length).length := by
    simp
    omega
  have key := EditorContentManager.onChangesGo_append
    (operationQueue.take changes.length) changes (operationQueue.drop changes.length) []
    hlen₁ hclass
  rw [List.take_append_drop, List.append_nil, EditorContentManager.onChangesGo_nil] at key
  refine ⟨(operationQueue.take changes.length).filterMap EditorContentManager.classifyOp,
    ?_, ?_, ?_⟩
  · simpa [EditorContentManager.onChanges] using key
  · rw [EditorContentManager.filterMap_classifyOp_length _ hclass]
    exact hlen₁.symm
  · intro i hi
    rw [EditorContentManager.filterMap_classifyOp_getElem _ hclass i,
      List.getElem?_take_of_lt hi]

/-- Witness for C1: a queue holding one insert record consumed by a
one-entry batch. -/
theorem c1_changes_classification_witness :
    [(⟨⟨0, 0⟩, ⟨0, 0⟩, ["x"]⟩ : EditorChange)].length
      ≤ [(⟨0, 0, some "x", none⟩ : IOperation)].length ∧
    (∀ op ∈ [(⟨0, 0, some "x", none⟩ : IOperation)].take
        [(⟨⟨0, 0⟩, ⟨0, 0⟩, ["x"]⟩ : EditorChange)].length,
      EditorContentManager.classifyOp op ≠ none) ∧
    ∃ events,
      EditorContentManager.onChanges false [⟨0, 0, some "x", none⟩]
          [⟨⟨0, 0⟩, ⟨0, 0⟩, ["x"]⟩]
        = ([(⟨0, 0, some "x", none⟩ : IOperation)].drop
            [(⟨⟨0, 0⟩, ⟨0, 0⟩, ["x"]⟩ : EditorChange)].length, events, none) ∧
      events.length = [(⟨⟨0, 0⟩, ⟨0, 0⟩, ["x"]⟩ : EditorChange)].length ∧
      ∀ i : Nat, i < [(⟨⟨0, 0⟩, ⟨0, 0⟩, ["x"]⟩ : EditorChange)].length →
        events[i]? = ([(⟨0, 0, some "x", none⟩ : IOperation)][i]?).bind
          EditorContentManager.classifyOp :=
  ⟨by decide, by decide,
   c1_changes_classification [⟨0, 0, some "x", none⟩] [⟨⟨0, 0⟩, ⟨0, 0⟩, ["x"]⟩]
     (by decide) (by decide)⟩

/-- C3: a dequeued record with `inserted` and `deleted` both null makes
the `changes` handler throw an error whose message carries the
serialized raw change object, and no callback is dispatched for that
change (the events stop at the preceding entries). -/
theorem c3_null_null_error
    (q₁ q₂ : List IOperation) (op : IOperation)
    (cs₁ cs₂ : List EditorChange) (changeObj : EditorChange)
    (hlen : cs₁.length = q₁.length)
    (hclass : ∀ o ∈ q₁, EditorContentManager.classifyOp o ≠ none)
    (hins : op.inserted = none) (hdel : op.deleted = none) :
    ∃ events,
      EditorContentManager.onChanges false (q₁ ++ op :: q₂) (cs₁ ++ changeObj :: cs₂)
        = (q₂, events,
           some (EditorContentManager.ChangeError.unexpectedChange changeObj)) ∧
      events.length = cs₁.length ∧
      EditorContentManager.errorMessage
          (EditorContentManager.ChangeError.unexpectedChange changeObj)
        = "Unexpected change: " ++ EditorContentManager.jsonStringifyChange changeObj := by
  have hop : EditorContentManager.classifyOp op = none := by
    simp [EditorContentManager.classifyOp, hins, hdel]
  have key := EditorContentManager.onChangesGo_append q₁ cs₁ (op :: q₂) (changeObj :: cs₂)
    hlen hclass
  rw [EditorContentManager.onChangesGo_cons_none op q₂ changeObj cs₂ hop] at key
  refine ⟨q₁.filterMap EditorContentManager.classifyOp, ?_, ?_, rfl⟩
  · simpa [EditorContentManager.onChanges] using key
  · rw [EditorContentManager.filterMap_classifyOp_length q₁ hclass, hlen]

/-- Witness for C3: the first batch entry meets a null/null record. -/
theorem c3_null_null_error_witness :
    ((⟨0, 0, none, none⟩ : IOperation).inserted = none) ∧
    ((⟨0, 0, none, none⟩ : IOperation).deleted = none) ∧
    ∃ events,
      EditorContentManager.onChanges false ([] ++ (⟨0, 0, none, none⟩ : IOperation) :: [])
          ([] ++ (⟨⟨0, 0⟩, ⟨0, 0⟩, [""]⟩ : EditorChange) :: [])
        = ([], events,
           some (EditorContentManager.ChangeError.unexpectedChange ⟨⟨0, 0⟩, ⟨0, 0⟩, [""]⟩)) ∧
      events.length = ([] : List EditorChange).length ∧
      EditorContentManager.errorMessage
          (EditorContentManager.ChangeError.unexpectedChange ⟨⟨0, 0⟩, ⟨0, 0⟩, [""]⟩)
        = "Unexpected change: "
          ++ EditorContentManager.jsonStringifyChange ⟨⟨0, 0⟩, ⟨0, 0⟩, [""]⟩ :=
  ⟨rfl, rfl,
   c3_null_null_error [] [] ⟨0, 0, none, none⟩ [] [] ⟨⟨0, 0⟩, ⟨0, 0⟩, [""]⟩
     rfl (by simp) rfl rfl⟩

/-- C4: the pending-operation queue is FIFO: each unsuppressed
`beforeChange` appends exactly one record, a batch whose length matches
the queue consumes the whole queue pairing record i with change entry
i, and a batch with more change entries than queued records throws
(the destructuring of `shift()`'s `undefined`) instead of retrying. -/
theorem c4_fifo_queue (editor : HostEditor) (befores : List EditorChange)
    (initialQueue operationQueue : List IOperation) (changes : List EditorChange) :
    (befores.foldl
        (fun acc c => EditorContentManager.onBeforeChange false editor acc c) initialQueue
      = initialQueue ++ befores.map (EditorContentManager.makeOperation editor)) ∧
    (operationQueue.length = changes.length →
      (∀ op ∈ operationQueue, EditorContentManager.classifyOp op ≠ none) →
      ∃ events,
        EditorContentManager.onChanges false operationQueue changes = ([], events, none) ∧
        events.length = changes.length ∧
        ∀ i : Nat, i < changes.length →
          events[i]? = (operationQueue[i]?).bind EditorContentManager.classifyOp) ∧
    (operationQueue.length < changes.length →
      (∀ op ∈ operationQueue, EditorContentManager.classifyOp op ≠ none) →
      EditorContentManager.onChanges false operationQueue changes
        = ([], operationQueue.filterMap EditorContentManager.classifyOp,
           some EditorContentManager.ChangeError.shiftUndefined)) := by
  refine ⟨EditorContentManager.foldl_onBeforeChange_active editor befores initialQueue,
    ?_, ?_⟩
  · intro hlen hclass
    have key := EditorContentManager.onChangesGo_append operationQueue changes [] []
      hlen.symm hclass
    rw [List.append_nil, List.append_nil, EditorContentManager.onChangesGo_nil] at key
    refine ⟨operationQueue.filterMap EditorContentManager.classifyOp, ?_, ?_, ?_⟩
    · simpa [EditorContentManager.onChanges] using key
    · rw [EditorContentManager.filterMap_classifyOp_length _ hclass, hlen]
    · intro i _
      exact EditorContentManager.filterMap_classifyOp_getElem _ hclass i
  · intro hlen hclass
    cases hcs : changes.drop operationQueue.length with
    | nil =>
      have := congrArg List.length hcs
      simp at this
      omega
    | cons c rest =>
      have hlen₁ : (changes.take operationQueue.length).length = operationQueue.length := by
        simp
        omega
      have key := EditorContentManager.onChangesGo_append operationQueue
        (changes.take operationQueue.length) [] (c :: rest) hlen₁ hclass
      rw [List.append_nil, EditorContentManager.onChangesGo_nil_cons] at key
      rw [← hcs, List.take_append_drop] at key
      simpa [EditorContentManager.onChanges] using key

/-- Witness for C4: one before-notification appends one record; a
matched one-entry batch consumes it; a two-entry batch against the
one-record queue throws. -/
theorem c4_fifo_queue_witness :
    ([(⟨⟨0, 0⟩, ⟨0, 0⟩, ["x"]⟩ : EditorChange)].foldl
        (fun acc c => EditorContentManager.onBeforeChange false lineZeroEditor acc c) []
      = [] ++ [(⟨⟨0, 0⟩, ⟨0, 0⟩, ["x"]⟩ : EditorChange)].map
          (EditorContentManager.makeOperation lineZeroEditor)) ∧
    (∃ events,
      EditorContentManager.onChanges false [(⟨0, 0, some "x", none⟩ : IOperation)]
          [⟨⟨0, 0⟩, ⟨0, 0⟩, ["x"]⟩]
        = ([], events, none) ∧
      events.length = [(⟨⟨0, 0⟩, ⟨0, 0⟩, ["x"]⟩ : EditorChange)].length ∧
      ∀ i : Nat, i < [(⟨⟨0, 0⟩, ⟨0, 0⟩, ["x"]⟩ : EditorChange)].length →
        events[i]? = ([(⟨0, 0, some "x", none⟩ : IOperation)][i]?).bind
          EditorContentManager.classifyOp) ∧
    (EditorContentManager.onChanges false [(⟨0, 0, some "x", none⟩ : IOperation)]
        [⟨⟨0, 0⟩, ⟨0, 0⟩, ["x"]⟩, ⟨⟨0, 1⟩, ⟨0, 1⟩, ["y"]⟩]
      = ([], [(⟨0, 0, some "x", none⟩ : IOperation)].filterMap
            EditorContentManager.classifyOp,
         some EditorContentManager.ChangeError.shiftUndefined)) :=
  ⟨(c4_fifo_queue lineZeroEditor [⟨⟨0, 0⟩, ⟨0, 0⟩, ["x"]⟩] [] [] []).1,
   (c4_fifo_queue lineZeroEditor [] [] [⟨0, 0, some "x", none⟩]
      [⟨⟨0, 0⟩, ⟨0, 0⟩, ["x"]⟩]).2.1 (by decide) (by decide),
   (c4_fifo_queue lineZeroEditor [] [] [⟨0, 0, some "x", none⟩]
      [⟨⟨0, 0⟩, ⟨0, 0⟩, ["x"]⟩, ⟨⟨0, 1⟩, ⟨0, 1⟩, ["y"]⟩]).2.2 (by decide) (by decide)⟩

/-- C8: validated public operations reject invalid arguments with a
synchronous error whose message starts with the offending parameter's
name, leaving the state untouched: `setIndex` with a non-number,
`setPosition` with a value lacking numeric `line` / `ch` fields, and a
constructor missing its required options. -/
theorem c8_validation_errors (editor : HostEditor) (w : RemoteCursorWidgetState)
    (idx pos : JSValue) :
    (jsTypeof idx ≠ "number" →
      RemoteCursorWidget.setIndex editor w idx
        = (w, some ("index must be a number but was: " ++ jsToString idx)) ∧
      ∃ rest, "index must be a number but was: " ++ jsToString idx = "index" ++ rest) ∧
    (jsTypeof (getField pos "line") ≠ "number" ∨ jsTypeof (getField pos "ch") ≠ "number" →
      ∃ msg, RemoteCursorWidget.setPosition editor w pos = (w, some msg) ∧
        ∃ rest, msg = "position" ++ rest) ∧
    RemoteSelectionManager.construct JSValue.null
      = Except.error ("options must be a defined but was: " ++ jsToString JSValue.null) ∧
    ∃ rest, "options must be a defined but was: " ++ jsToString JSValue.null
      = "options" ++ rest := by
  refine ⟨fun h => ⟨?_, " must be a number but was: " ++ jsToString idx, ?_⟩,
    fun h => ?_, ?_, " must be a defined but was: " ++ jsToString JSValue.null, ?_⟩
  · simp [RemoteCursorWidget.setIndex, Validation.assertNumber, h]
  · rw [← String.append_assoc]
    rfl
  · by_cases hd : isNullOrUndefined pos = true
    · refine ⟨"position must be a defined but was: " ++ jsToString pos, ?_,
        " must be a defined but was: " ++ jsToString pos, ?_⟩
      · simp [RemoteCursorWidget.setPosition, Validation.assertPosition,
          Validation.assertDefined, hd]
      · rw [← String.append_assoc]
        rfl
    · refine ⟨"position must be an Object like \x7bline: number, ch: number\x7d: "
          ++ jsonStringifyJS pos, ?_,
        " must be an Object like \x7bline: number, ch: number\x7d: "
          ++ jsonStringifyJS pos, ?_⟩
      · simp [RemoteCursorWidget.setPosition, Validation.assertPosition,
          Validation.assertDefined, hd, h]
      · rw [← String.append_assoc]
        rfl
  · rfl
  · rw [← String.append_assoc]
    rfl

/-- Witness for C8: a string passed to `setIndex`, `null` passed to
`setPosition`, and the constructor called with `null` options. -/
theorem c8_validation_errors_witness :
    (jsTypeof (JSValue.str "x") ≠ "number") ∧
    RemoteCursorWidget.setIndex lineZeroEditor sampleWidget (JSValue.str "x")
      = (sampleWidget,
         some ("index must be a number but was: " ++ jsToString (JSValue.str "x"))) ∧
    (jsTypeof (getField JSValue.null "line") ≠ "number" ∨
      jsTypeof (getField JSValue.null "ch") ≠ "number") ∧
    (∃ msg, RemoteCursorWidget.setPosition lineZeroEditor sampleWidget JSValue.null
        = (sampleWidget, some msg) ∧ ∃ rest, msg = "position" ++ rest) ∧
    RemoteSelectionManager.construct JSValue.null
      = Except.error ("options must be a defined but was: " ++ jsToString JSValue.null) :=
  ⟨by decide,
   ((c8_validation_errors lineZeroEditor sampleWidget (JSValue.str "x") JSValue.null).1
      (by decide)).1,
   by decide,
   (c8_validation_errors lineZeroEditor sampleWidget (JSValue.str "x") JSValue.null).2.1
     (by decide),
   (c8_validation_errors lineZeroEditor sampleWidget (JSValue.str "x") JSValue.null).2.2.1⟩

/-- C10: every id-taking `RemoteSelectionManager` operation throws
`"No such selection: " + id` when the id was never added, and leaves
the registry unchanged; the message ends with the missing id. -/
theorem c10_missing_selection_id (editor : HostEditor)
    (st : RemoteSelectionManagerState) (id : String)
    (start «end» : Position) (i j : Int)
    (h : st.remoteSelections.lookup id = none) :
    RemoteSelectionManager.removeSelection st id
      = (st, some ("No such selection: " ++ id)) ∧
    RemoteSelectionManager.setSelectionIndices editor st id i j
      = (st, some ("No such selection: " ++ id)) ∧
    RemoteSelectionManager.setSelectionPositions st id start «end»
      = (st, some ("No such selection: " ++ id)) ∧
    RemoteSelectionManager.showSelection st id
      = (st, some ("No such selection: " ++ id)) ∧
    RemoteSelectionManager.hideSelection st id
      = (st, some ("No such selection: " ++ id)) ∧
    ∃ rest, "No such selection: " ++ id = rest ++ id := by
  have hg : RemoteSelectionManager.getSelection st id
      = Except.error ("No such selection: " ++ id) := by
    simp [RemoteSelectionManager.getSelection, h]
  refine ⟨?_, ?_, ?_, ?_, ?_, "No such selection: ", rfl⟩ <;>
    simp [RemoteSelectionManager.removeSelection,
      RemoteSelectionManager.setSelectionIndices,
      RemoteSelectionManager.setSelectionPositions,
      RemoteSelectionManager.showSelection,
      RemoteSelectionManager.hideSelection, hg]

/-- Witness for C10: the empty manager and the id "jDoe". -/
theorem c10_missing_selection_id_witness :
    (RemoteSelectionManagerState.mk [] 0).remoteSelections.lookup "jDoe" = none ∧
    RemoteSelectionManager.removeSelection ⟨[], 0⟩ "jDoe"
      = (⟨[], 0⟩, some ("No such selection: " ++ "jDoe")) ∧
    RemoteSelectionManager.showSelection ⟨[], 0⟩ "jDoe"
      = (⟨[], 0⟩, some ("No such selection: " ++ "jDoe")) ∧
    ∃ rest, "No such selection: " ++ "jDoe" = rest ++ "jDoe" :=
  ⟨rfl,
   (c10_missing_selection_id lineZeroEditor ⟨[], 0⟩ "jDoe" ⟨0, 0⟩ ⟨0, 0⟩ 0 0 rfl).1,
   (c10_missing_selection_id lineZeroEditor ⟨[], 0⟩ "jDoe" ⟨0, 0⟩ ⟨0, 0⟩ 0 0 rfl).2.2.2.1,
   (c10_missing_selection_id lineZeroEditor ⟨[], 0⟩ "jDoe" ⟨0, 0⟩ ⟨0, 0⟩ 0 0 rfl).2.2.2.2.2⟩

end CMCollab
